import Mathlib

/-
Verification development for the notification dispatch worker
(processing-service). Shallow embedding of:
  - src/senders: email_sender.py, sms_sender.py, push_sender.py
  - src/retry_handler.py
  - src/consumer.py (check_idempotency, process_message)
External effects (the Redis idempotency store, the FORCE_FAILURE flag,
the random failure draw, a mark write failure) are supplied as explicit
oracle inputs in an Env record; broker primitives (ack, nack, publish)
become the returned Outcome value.
-/

namespace NotifWorker

/-- Payload mapping: a JSON object of string fields, modelled as an
association list (Python dict has unique keys; first match wins). -/
abbrev Payload := List (String × String)

/-- Embedding of Python dict.get(key): first value bound to the key, if any. -/
def dictGet (p : Payload) (k : String) : Option String :=
  match p with
  | [] => none
  | (k2, v) :: rest => if k2 = k then some v else dictGet rest k

/-- Result of one dispatcher invocation. The source dispatchers either
return True or raise a plain Exception (forced failure, simulated random
failure) or an uncaught TypeError when len() is applied to a missing
field. There is no classified error type in the source. -/
inductive SendResult where
  | success
  | forcedFailure
  | randomFailure
  | typeError
deriving DecidableEq

/-- Embedding of send_email (src/senders/email_sender.py). Reads to,
subject, body with dict.get; raises if FORCE_FAILURE or the random draw
fails; otherwise evaluates len(body) in the print conditional, which
raises TypeError when body is absent (None); to and subject are only
printed, so their absence does not fail. -/
def send_email (force_failure random_fail : Bool) (payload : Payload) : SendResult :=
  if force_failure then SendResult.forcedFailure
  else if random_fail then SendResult.randomFailure
  else
    match dictGet payload "body" with
    | none => SendResult.typeError
    | some _ => SendResult.success

/-- Embedding of send_sms (src/senders/sms_sender.py). to and message are
only printed; no len() is taken, so a missing field never fails. -/
def send_sms (force_failure random_fail : Bool) (_payload : Payload) : SendResult :=
  if force_failure then SendResult.forcedFailure
  else if random_fail then SendResult.randomFailure
  else SendResult.success

/-- Embedding of send_push (src/senders/push_sender.py). len(device_token)
is evaluated in the print conditional, so a missing deviceToken raises
TypeError; title, body, data are only printed. -/
def send_push (force_failure random_fail : Bool) (payload : Payload) : SendResult :=
  if force_failure then SendResult.forcedFailure
  else if random_fail then SendResult.randomFailure
  else
    match dictGet payload "deviceToken" with
    | none => SendResult.typeError
    | some _ => SendResult.success

/-- A dispatcher as stored in the SENDERS mapping, with the ambient
FORCE_FAILURE flag and the random draw made explicit parameters. -/
abbrev SenderFn := Bool → Bool → Payload → SendResult

/-- Embedding of SENDERS.get(message_type) from src/consumer.py: the
name-to-function mapping with keys email, sms, push; any other key
(including a missing type field, Python None) yields no sender. -/
def SENDERS_get : Option String → Option SenderFn
  | some "email" => some send_email
  | some "sms" => some send_sms
  | some "push" => some send_push
  | _ => none

/-- In the source, sender(payload) is applied to message_data.get(payload),
which may be None; payload.get on None raises AttributeError before
anything else in the dispatcher runs. -/
def callSender (s : SenderFn) (force_failure random_fail : Bool)
    (payload : Option Payload) : SendResult :=
  match payload with
  | none => SendResult.typeError
  | some p => s force_failure random_fail p

/-! Retry policy (src/retry_handler.py). -/

def MAX_RETRIES : Nat := 5
def BASE_DELAY : Nat := 1
def MAX_DELAY : Nat := 16

/-- Embedding of calculate_backoff_delay: min(BASE_DELAY * 2 ** retry_count,
MAX_DELAY). The source returns a float whose value is always a whole number
of seconds, so Nat is exact. -/
def calculate_backoff_delay (retry_count : Nat) : Nat :=
  min (BASE_DELAY * 2 ^ retry_count) MAX_DELAY

/-- Embedding of should_retry. -/
def should_retry (retry_count : Nat) : Bool :=
  retry_count < MAX_RETRIES

/-- Embedding of class RetryableMessage. -/
structure RetryableMessage where
  message_id : Option String
  message_type : Option String
  payload : Option Payload
  retry_count : Nat
  max_retries : Nat
deriving DecidableEq

/-- Embedding of RetryableMessage.can_retry. -/
def RetryableMessage.can_retry (r : RetryableMessage) : Bool :=
  r.retry_count < r.max_retries

/-- Embedding of RetryableMessage.get_backoff_delay. -/
def RetryableMessage.get_backoff_delay (r : RetryableMessage) : Nat :=
  calculate_backoff_delay r.retry_count

/-- Embedding of RetryableMessage.increment_retry: same message with
retry_count incremented by one. -/
def RetryableMessage.increment_retry (r : RetryableMessage) : RetryableMessage :=
  { r with retry_count := r.retry_count + 1 }

/-! Consumer (src/consumer.py). -/

/-- Parsed JSON body of a delivery. Each field is optional because the
source reads them with dict.get, which yields None when absent. Extra
keys beyond these six are not modelled. -/
structure MessageData where
  id : Option String
  typ : Option String
  userId : Option String
  idempotencyKey : Option String
  payload : Option Payload
  retryCount : Option Nat
deriving DecidableEq

/-- Python str() of an optional string as it appears inside an f-string:
None prints as the four characters None. -/
def pyStr : Option String → String
  | none => "None"
  | some s => s

/-- Embedding of check_idempotency: EXISTS on the key
processed:<user_id>:<idempotency_key> against the store contents. -/
def check_idempotency (store : List String) (user_id idempotency_key : Option String) : Bool :=
  store.contains ("processed:" ++ pyStr user_id ++ ":" ++ pyStr idempotency_key)

/-- The message republished by basic_publish during the retry path:
exchange, routing key, new body, delivery mode, x-retry-count header,
per-message TTL in milliseconds. -/
structure PublishedMessage where
  exchange : String
  routingKey : String
  body : MessageData
  deliveryMode : Nat
  headerRetryCount : Nat
  expirationMs : Nat
deriving DecidableEq

/-- Broker outcome of one delivery, read off the basic_ack / basic_nack /
basic_publish calls process_message issues. nackRequeue (requeue=True) is
a primitive pika offers; it is listed so that its absence from every code
path is a statement and not a tautology. -/
inductive Outcome where
  | ackSuccess
  | ackDuplicate
  | republishAck (pub : PublishedMessage)
  | nackNoRequeue
  | nackRequeue
deriving DecidableEq

/-- A single broker primitive call. -/
inductive BrokerAction where
  | ack
  | nack (requeue : Bool)
  | publish (pub : PublishedMessage)
deriving DecidableEq

/-- The sequence of broker calls each outcome stands for, in order. -/
def Outcome.actions : Outcome → List BrokerAction
  | Outcome.ackSuccess => [BrokerAction.ack]
  | Outcome.ackDuplicate => [BrokerAction.ack]
  | Outcome.republishAck pub => [BrokerAction.publish pub, BrokerAction.ack]
  | Outcome.nackNoRequeue => [BrokerAction.nack false]
  | Outcome.nackRequeue => [BrokerAction.nack true]

/-- Result of process_message: the broker outcome plus whether a
dispatcher function was invoked for the delivery. -/
structure PResult where
  outcome : Outcome
  dispatched : Bool
deriving DecidableEq

/-- One broker delivery as handed to process_message: the parsed body
(none = malformed JSON), the x-retry-count header when present, and the
routing key of method. -/
structure Delivery where
  body : Option MessageData
  headerRetryCount : Option Nat
  routingKey : String
deriving DecidableEq

/-- External-effect oracle for one run of process_message: the current
Redis key set, whether the EXISTS read raises, whether the SETEX write of
mark_as_processed raises, the FORCE_FAILURE flag and the random failure
draw seen by the dispatcher. -/
structure Env where
  store : List String
  readFails : Bool
  markFails : Bool
  force_failure : Bool
  random_fail : Bool
deriving DecidableEq

/-- Effective retry count: header x-retry-count overrides the body field,
which defaults to 0 (consumer.py lines 65-68). -/
def effRC (d : Delivery) (m : MessageData) : Nat :=
  match d.headerRetryCount with
  | some h => h
  | none => m.retryCount.getD 0

/-- Embedding of the except-Exception-as-send_error handler of
process_message: if retryable.can_retry, republish the body with
retryCount incremented, header x-retry-count set to the new count,
persistent delivery mode, TTL = delay in milliseconds, to the same
routing key, then ack the original; else nack without requeue. The
dispatcher has already been invoked on every path reaching here. -/
def handle_send_error (d : Delivery) (m : MessageData) (retryable : RetryableMessage) : PResult :=
  if retryable.can_retry then
    let delay := retryable.get_backoff_delay
    let new_message := retryable.increment_retry
    { outcome := Outcome.republishAck
        { exchange := ""
          routingKey := d.routingKey
          body := { m with retryCount := some new_message.retry_count }
          deliveryMode := 2
          headerRetryCount := new_message.retry_count
          expirationMs := delay * 1000 }
      dispatched := true }
  else
    { outcome := Outcome.nackNoRequeue, dispatched := true }

/-- The RetryableMessage the consumer constructs for a delivery
(consumer.py lines 87-92): the parsed fields plus the effective retry
count, with the default max_retries = MAX_RETRIES. -/
def mkRetryable (d : Delivery) (message_data : MessageData) : RetryableMessage :=
  { message_id := message_data.id
    message_type := message_data.typ
    payload := message_data.payload
    retry_count := effRC d message_data
    max_retries := MAX_RETRIES }

/-- Body of process_message after a successful JSON parse. A raised
idempotency read lands in the outer except handler, which nacks without
requeue; a duplicate hit acks; an unknown type nacks without requeue; a
dispatcher success is followed by mark_as_processed, whose failure is
caught by the same except clause as a send failure. -/
def process_parsed (env : Env) (d : Delivery) (message_data : MessageData) : PResult :=
  if env.readFails then
    { outcome := Outcome.nackNoRequeue, dispatched := false }
  else if check_idempotency env.store message_data.userId message_data.idempotencyKey then
    { outcome := Outcome.ackDuplicate, dispatched := false }
  else
    match SENDERS_get message_data.typ with
    | none => { outcome := Outcome.nackNoRequeue, dispatched := false }
    | some sender =>
      match callSender sender env.force_failure env.random_fail message_data.payload with
      | SendResult.success =>
        if env.markFails then handle_send_error d message_data (mkRetryable d message_data)
        else { outcome := Outcome.ackSuccess, dispatched := true }
      | _ => handle_send_error d message_data (mkRetryable d message_data)

/-- Embedding of process_message (src/consumer.py lines 43-142). A body
that fails to parse as JSON is nacked without requeue by the
JSONDecodeError handler. -/
def process_message (env : Env) (d : Delivery) : PResult :=
  match d.body with
  | none => { outcome := Outcome.nackNoRequeue, dispatched := false }
  | some message_data => process_parsed env d message_data

/-- The exact message the retry path publishes for a delivery d with
parsed body m: same routing key, body with retryCount bumped to the
effective retry count plus one, persistent delivery mode, matching
x-retry-count header, TTL = backoff delay in milliseconds. -/
def republishOf (d : Delivery) (m : MessageData) : PublishedMessage :=
  { exchange := ""
    routingKey := d.routingKey
    body := { m with retryCount := some (effRC d m + 1) }
    deliveryMode := 2
    headerRetryCount := effRC d m + 1
    expirationMs := calculate_backoff_delay (effRC d m) * 1000 }

/-- Effective retry counts a single logical message can reach through
chains of republishes: the first delivery carries 0, and each republished
delivery carries the x-retry-count header its republish wrote (the header
overrides the body on redelivery, see effRC). -/
inductive ReachableRC : Nat → Prop where
  | zero : ReachableRC 0
  | step (env : Env) (d : Delivery) (m : MessageData) (pub : PublishedMessage) :
      d.body = some m →
      ReachableRC (effRC d m) →
      (process_message env d).outcome = Outcome.republishAck pub →
      ReachableRC pub.headerRetryCount

/-! Concrete inputs used by witnesses and counterexamples. -/

/-- A complete email payload. -/
def payloadFull : Payload := [("to", "x@y"), ("subject", "s"), ("body", "b")]

/-- A fully populated email message. -/
def mFull : MessageData :=
  { id := some "a"
    typ := some "email"
    userId := some "u1"
    idempotencyKey := some "k1"
    payload := some payloadFull
    retryCount := none }

/-- The same message with userId and idempotencyKey absent. -/
def mNoIds : MessageData :=
  { mFull with userId := none, idempotencyKey := none }

/-- Delivery of mFull with no x-retry-count header, on routing key email. -/
def dFull : Delivery :=
  { body := some mFull, headerRetryCount := none, routingKey := "email" }

/-- Delivery of mNoIds. -/
def dNoIds : Delivery :=
  { body := some mNoIds, headerRetryCount := none, routingKey := "email" }

/-- Delivery of mFull with header x-retry-count = 5 (retries exhausted). -/
def dRetry5 : Delivery :=
  { dFull with headerRetryCount := some 5 }

/-- Environment: empty store, no infrastructure failures, dispatcher
succeeds. -/
def envOK : Env :=
  { store := [], readFails := false, markFails := false
    force_failure := false, random_fail := false }

/-- Environment whose store already holds the record for (u1, k1). -/
def envDup : Env := { envOK with store := ["processed:u1:k1"] }

/-- Environment where the idempotency read raises. -/
def envReadFail : Env := { envOK with readFails := true }

/-- Environment where the mark write raises after a successful dispatch. -/
def envMarkFail : Env := { envOK with markFails := true }

/-- Environment where FORCE_FAILURE makes every dispatch raise. -/
def envForce : Env := { envOK with force_failure := true }

/-- The message republished when dFull fails dispatch at retry count 0:
retryCount 1 in body and header, TTL 1000 ms, routing key email. -/
def pubRetry1 : PublishedMessage :=
  { exchange := ""
    routingKey := "email"
    body := { mFull with retryCount := some 1 }
    deliveryMode := 2
    headerRetryCount := 1
    expirationMs := 1000 }

/-! Helper lemmas. -/

/-- Unfolding of process_message on a delivery whose body parses. -/
lemma process_message_some (env : Env) (d : Delivery) (m : MessageData)
    (hb : d.body = some m) :
    process_message env d = process_parsed env d m := by
  unfold process_message
  rw [hb]

/-- Closed form of the send-error handler. -/
lemma handle_send_error_eq (d : Delivery) (m : MessageData) (r : RetryableMessage) :
    handle_send_error d m r =
      if r.retry_count < r.max_retries then
        { outcome := Outcome.republishAck
            { exchange := ""
              routingKey := d.routingKey
              body := { m with retryCount := some (r.retry_count + 1) }
              deliveryMode := 2
              headerRetryCount := r.retry_count + 1
              expirationMs := calculate_backoff_delay r.retry_count * 1000 }
          dispatched := true }
      else { outcome := Outcome.nackNoRequeue, dispatched := true } := by
  unfold handle_send_error RetryableMessage.can_retry RetryableMessage.get_backoff_delay
    RetryableMessage.increment_retry
  by_cases hlt : r.retry_count < r.max_retries <;> simp [hlt]

/-- The send-error handler republishes or dead-letters, nothing else, and
the dispatcher has been invoked on the way in. -/
lemma handle_send_error_outcome (d : Delivery) (m : MessageData) (r : RetryableMessage) :
    ((∃ pub, (handle_send_error d m r).outcome = Outcome.republishAck pub) ∨
      (handle_send_error d m r).outcome = Outcome.nackNoRequeue) ∧
    (handle_send_error d m r).dispatched = true := by
  rw [handle_send_error_eq]
  by_cases hlt : r.retry_count < r.max_retries <;> simp [hlt]

/-- Inversion: a republish outcome can only arise from the retry branch,
with the effective retry count below MAX_RETRIES and exactly the envelope
republishOf describes. -/
lemma republish_inv (env : Env) (d : Delivery) (m : MessageData) (pub : PublishedMessage)
    (hb : d.body = some m)
    (h : (process_message env d).outcome = Outcome.republishAck pub) :
    effRC d m < MAX_RETRIES ∧ pub = republishOf d m := by
  rw [process_message_some env d m hb] at h
  unfold process_parsed at h
  by_cases hr : env.readFails = true
  · simp [hr] at h
  · simp only [hr] at h
    simp only [Bool.false_eq_true, if_false] at h
    by_cases hdup : check_idempotency env.store m.userId m.idempotencyKey = true
    · simp [hdup] at h
    · simp only [hdup, Bool.false_eq_true, if_false] at h
      rcases hs : SENDERS_get m.typ with _ | sender
      · rw [hs] at h
        simp at h
      · simp only [hs] at h
        have hmain : ∀ hh : (handle_send_error d m (mkRetryable d m)).outcome
              = Outcome.republishAck pub,
            effRC d m < MAX_RETRIES ∧ pub = republishOf d m := by
          intro hh
          rw [handle_send_error_eq] at hh
          by_cases hlt : (mkRetryable d m).retry_count < (mkRetryable d m).max_retries
          · simp only [hlt, if_true] at hh
            have hpub := hh.symm
            injection hpub with hpub
            constructor
            · exact hlt
            · rw [hpub]
              rfl
          · simp [hlt] at hh
        rcases hres : callSender sender env.force_failure env.random_fail m.payload with
          _ | _ | _ | _
        · simp only [hres] at h
          by_cases hm : env.markFails = true
          · simp only [hm, if_true] at h
            exact hmain h
          · simp [hm] at h
        · simp only [hres] at h
          exact hmain h
        · simp only [hres] at h
          exact hmain h
        · simp only [hres] at h
          exact hmain h

/-- Every result of process_parsed past the sender lookup has
dispatched = true or is one of the no-dispatch constants. -/
lemma process_parsed_cases (env : Env) (d : Delivery) (m : MessageData) :
    process_parsed env d m = { outcome := Outcome.nackNoRequeue, dispatched := false } ∨
    process_parsed env d m = { outcome := Outcome.ackDuplicate, dispatched := false } ∨
    process_parsed env d m = { outcome := Outcome.ackSuccess, dispatched := true } ∨
    process_parsed env d m = handle_send_error d m (mkRetryable d m) := by
  unfold process_parsed
  by_cases hr : env.readFails = true
  · simp [hr]
  · simp only [hr, Bool.false_eq_true, if_false]
    by_cases hdup : check_idempotency env.store m.userId m.idempotencyKey = true
    · simp [hdup]
    · simp only [hdup, Bool.false_eq_true, if_false]
      rcases hs : SENDERS_get m.typ with _ | sender
      · simp
      · rcases hres : callSender sender env.force_failure env.random_fail m.payload with
          _ | _ | _ | _
        · by_cases hm : env.markFails = true
          · simp [hres, hm]
          · simp [hres, hm]
        · simp [hres]
        · simp [hres]
        · simp [hres]

/-! Claim theorems. -/

/-- Claim C1: for every delivery whose body parses and whose idempotency
check returns true (the store already contains the (userId,
idempotencyKey) pair when process_message consults it), no dispatcher is
invoked and the delivery is positively acknowledged, regardless of the
retry count. -/
theorem C1_duplicate_acked_no_dispatch (env : Env) (d : Delivery) (m : MessageData)
    (hb : d.body = some m) (hr : env.readFails = false)
    (hdup : check_idempotency env.store m.userId m.idempotencyKey = true) :
    process_message env d = { outcome := Outcome.ackDuplicate, dispatched := false } := by
  rw [process_message_some env d m hb]
  unfold process_parsed
  simp [hr, hdup]

/-- Witness for C1: the store holding processed:u1:k1 short-circuits the
delivery of mFull, for a concrete environment and delivery. -/
theorem C1_witness :
    check_idempotency envDup.store mFull.userId mFull.idempotencyKey = true ∧
    process_message envDup dFull
      = { outcome := Outcome.ackDuplicate, dispatched := false } :=
  ⟨by decide, C1_duplicate_acked_no_dispatch envDup dFull mFull rfl rfl (by decide)⟩

/-- Claim C2: every delivery handed to process_message terminates in
exactly one of the four broker outcomes: ack after successful dispatch,
ack after a duplicate hit, ack after a republish-with-delay, or a
negative acknowledgement without requeue; in particular no path issues a
nack-with-requeue or nothing at all. -/
theorem C2_no_silent_drop (env : Env) (d : Delivery) :
    (process_message env d).outcome = Outcome.ackSuccess ∨
    (process_message env d).outcome = Outcome.ackDuplicate ∨
    (∃ pub, (process_message env d).outcome = Outcome.republishAck pub) ∨
    (process_message env d).outcome = Outcome.nackNoRequeue := by
  rcases hd : d.body with _ | m
  · right; right; right
    unfold process_message
    rw [hd]
  · rw [process_message_some env d m hd]
    rcases process_parsed_cases env d m with hc | hc | hc | hc <;> rw [hc]
    · right; right; right; rfl
    · right; left; rfl
    · left; rfl
    · rcases (handle_send_error_outcome d m (mkRetryable d m)).1 with ⟨pub, hp⟩ | hp
      · right; right; left; exact ⟨pub, hp⟩
      · right; right; right; exact hp

/-- Counterexample to claim C4 as stated: with a raised idempotency read,
the delivery of mFull is nacked WITHOUT requeue (dead-lettered), not
nacked with requeue. -/
theorem C4_counterexample :
    (process_message envReadFail dFull).outcome = Outcome.nackNoRequeue ∧
    (process_message envReadFail dFull).outcome ≠ Outcome.nackRequeue := by
  decide

/-- Claim C4 (amended): for every parseable delivery where the idempotency
read raises, the exception reaches the outer except handler, which nacks
WITHOUT requeue, so the delivery is routed to the dead-letter queue and
no dispatcher is invoked; the broker does not redeliver it. -/
theorem C4_readfail_deadletters (env : Env) (d : Delivery) (m : MessageData)
    (hb : d.body = some m) (hr : env.readFails = true) :
    process_message env d = { outcome := Outcome.nackNoRequeue, dispatched := false } := by
  rw [process_message_some env d m hb]
  unfold process_parsed
  simp [hr]

/-- Witness for C4 (amended): concrete read-failure environment on the
delivery of mFull. -/
theorem C4_witness :
    process_message envReadFail dFull
      = { outcome := Outcome.nackNoRequeue, dispatched := false } :=
  C4_readfail_deadletters envReadFail dFull mFull rfl rfl

/-- Counterexample to claim C5 as stated: the delivery dNoIds lacks both
userId and idempotencyKey, yet the dispatcher IS invoked and the message
is acked as a success, not dead-lettered. -/
theorem C5_counterexample :
    mNoIds.userId = none ∧ mNoIds.idempotencyKey = none ∧
    (process_message envOK dNoIds).dispatched = true ∧
    (process_message envOK dNoIds).outcome = Outcome.ackSuccess := by
  decide

/-- Claim C5 (amended): a delivery whose body lacks idempotencyKey or
userId is NOT dead-lettered for that reason; the consumer consults the
store under the key formed from the literal Python str None and proceeds:
whenever the type is known and the store reports no duplicate, the
dispatcher is invoked exactly as for a fully populated message. -/
theorem C5_missing_ids_still_dispatch (env : Env) (d : Delivery) (m : MessageData)
    (sender : SenderFn)
    (hb : d.body = some m)
    (_hmiss : m.userId = none ∨ m.idempotencyKey = none)
    (hr : env.readFails = false)
    (hdup : check_idempotency env.store m.userId m.idempotencyKey = false)
    (hs : SENDERS_get m.typ = some sender) :
    (process_message env d).dispatched = true := by
  rw [process_message_some env d m hb]
  unfold process_parsed
  simp only [hr, Bool.false_eq_true, if_false, hdup, hs]
  rcases hres : callSender sender env.force_failure env.random_fail m.payload with
    _ | _ | _ | _
  · by_cases hm : env.markFails = true
    · simp [hm, (handle_send_error_outcome d m (mkRetryable d m)).2]
    · simp [hm]
  · exact (handle_send_error_outcome d m (mkRetryable d m)).2
  · exact (handle_send_error_outcome d m (mkRetryable d m)).2
  · exact (handle_send_error_outcome d m (mkRetryable d m)).2

/-- Witness for C5 (amended): the concrete delivery dNoIds, missing both
identity fields, still reaches the email dispatcher. -/
theorem C5_witness : (process_message envOK dNoIds).dispatched = true :=
  C5_missing_ids_still_dispatch envOK dNoIds mNoIds send_email rfl (Or.inl rfl) rfl
    (by decide) rfl

/-- Claim C7: the computed backoff delay is min(1 * 2 ^ attempt, 16)
seconds for every attempt; the delays after failed attempts 0..4 are
1, 2, 4, 8, 16 seconds; and no computed delay ever exceeds 16 seconds. -/
theorem C7_backoff_delay :
    (∀ a : Nat, calculate_backoff_delay a = min (1 * 2 ^ a) 16) ∧
    calculate_backoff_delay 0 = 1 ∧
    calculate_backoff_delay 1 = 2 ∧
    calculate_backoff_delay 2 = 4 ∧
    calculate_backoff_delay 3 = 8 ∧
    calculate_backoff_delay 4 = 16 ∧
    ∀ a : Nat, calculate_backoff_delay a ≤ 16 := by
  refine ⟨fun a => rfl, rfl, rfl, rfl, rfl, rfl, fun a => ?_⟩
  exact min_le_right _ _

/-- The send-error handler on the retryable the consumer builds:
republish envelope republishOf when the effective retry count is below
MAX_RETRIES, dead-letter otherwise. -/
lemma handle_mkRetryable (d : Delivery) (m : MessageData) :
    handle_send_error d m (mkRetryable d m) =
      if effRC d m < MAX_RETRIES then
        { outcome := Outcome.republishAck (republishOf d m), dispatched := true }
      else { outcome := Outcome.nackNoRequeue, dispatched := true } := by
  rw [handle_send_error_eq]
  rfl

/-- Counterexample to claim C3 as stated: with a dispatcher success and a
failing mark write, the delivery of mFull is NOT simply acked; it is
republished for retry with retryCount 1. -/
theorem C3_counterexample :
    (process_message envMarkFail dFull).outcome = Outcome.republishAck pubRetry1 ∧
    (process_message envMarkFail dFull).outcome ≠ Outcome.ackSuccess := by
  decide

/-- Claim C3 (amended): when the dispatcher succeeds but the mark write
raises, the exception is caught by the same except clause as a send
failure, so the delivery takes the retry path: it is republished with
incremented retry count and acked when the effective retry count is below
MAX_RETRIES, and dead-lettered otherwise; it is never acked as a plain
success, and the dispatcher had been invoked. -/
theorem C3_markfail_takes_retry_path (env : Env) (d : Delivery) (m : MessageData)
    (sender : SenderFn)
    (hb : d.body = some m) (hr : env.readFails = false)
    (hdup : check_idempotency env.store m.userId m.idempotencyKey = false)
    (hs : SENDERS_get m.typ = some sender)
    (hsend : callSender sender env.force_failure env.random_fail m.payload
      = SendResult.success)
    (hmark : env.markFails = true) :
    (effRC d m < MAX_RETRIES →
      (process_message env d).outcome = Outcome.republishAck (republishOf d m)) ∧
    (MAX_RETRIES ≤ effRC d m →
      (process_message env d).outcome = Outcome.nackNoRequeue) ∧
    (process_message env d).outcome ≠ Outcome.ackSuccess ∧
    (process_message env d).dispatched = true := by
  rw [process_message_some env d m hb]
  unfold process_parsed
  simp only [hr, Bool.false_eq_true, if_false, hdup, hs, hsend, hmark, if_true]
  rw [handle_mkRetryable]
  refine ⟨fun hlt => ?_, fun hge => ?_, ?_, ?_⟩
  · simp [hlt]
  · have hnlt : ¬ effRC d m < MAX_RETRIES := not_lt.mpr hge
    simp [hnlt]
  · by_cases hlt : effRC d m < MAX_RETRIES <;> simp [hlt]
  · by_cases hlt : effRC d m < MAX_RETRIES <;> simp [hlt]

/-- Witness for C3 (amended): concrete mark-failure run on the delivery
of mFull at retry count 0. -/
theorem C3_witness :
    (process_message envMarkFail dFull).outcome
      = Outcome.republishAck (republishOf dFull mFull) ∧
    (process_message envMarkFail dFull).outcome ≠ Outcome.ackSuccess := by
  have h := C3_markfail_takes_retry_path envMarkFail dFull mFull send_email rfl rfl
    (by decide) rfl (by decide) rfl
  exact ⟨h.1 (by decide), h.2.2.1⟩

/-- Claim C6: canRetry holds exactly when the attempt count is below
MAX_RETRIES = 5; a delivery whose dispatch fails with effective retry
count at least 5 is dead-lettered rather than republished; and every
retry count reachable through chains of republishes is at most 5, so
attempt numbers are 0..5 and one logical message sees at most 6
dispatches absent broker duplicates. -/
theorem C6_retry_bound :
    (∀ r : RetryableMessage, r.max_retries = MAX_RETRIES →
      (r.can_retry = true ↔ r.retry_count < 5)) ∧
    (∀ (env : Env) (d : Delivery) (m : MessageData) (sender : SenderFn),
      d.body = some m → env.readFails = false →
      check_idempotency env.store m.userId m.idempotencyKey = false →
      SENDERS_get m.typ = some sender →
      callSender sender env.force_failure env.random_fail m.payload
        ≠ SendResult.success →
      5 ≤ effRC d m →
      (process_message env d).outcome = Outcome.nackNoRequeue) ∧
    (∀ n : Nat, ReachableRC n → n ≤ 5) := by
  refine ⟨?_, ?_, ?_⟩
  · intro r hmax
    rw [RetryableMessage.can_retry, hmax]
    simp [MAX_RETRIES]
  · intro env d m sender hb hr hdup hs hsend hge
    rw [process_message_some env d m hb]
    unfold process_parsed
    simp only [hr, Bool.false_eq_true, if_false, hdup, hs]
    have hnlt : ¬ effRC d m < MAX_RETRIES := by
      unfold MAX_RETRIES
      omega
    rcases hres : callSender sender env.force_failure env.random_fail m.payload with
      _ | _ | _ | _
    · exact absurd hres hsend
    · rw [handle_mkRetryable]
      simp [hnlt]
    · rw [handle_mkRetryable]
      simp [hnlt]
    · rw [handle_mkRetryable]
      simp [hnlt]
  · intro n h
    induction h with
    | zero => omega
    | step env d m pub hb hrc hout ih =>
      obtain ⟨hlt, hp⟩ := republish_inv env d m pub hb hout
      subst hp
      show effRC d m + 1 ≤ 5
      unfold MAX_RETRIES at hlt
      omega

/-- Witness for C6: at effective retry count 5 canRetry is false and a
forced dispatch failure dead-letters the delivery; retry count 1 is
reachable from a first-delivery failure and is within the bound. -/
theorem C6_witness :
    ((mkRetryable dRetry5 mFull).can_retry = true ↔ 5 < 5) ∧
    (process_message envForce dRetry5).outcome = Outcome.nackNoRequeue ∧
    ReachableRC 1 ∧ (1 : Nat) ≤ 5 := by
  have h := C6_retry_bound
  have hstep : ReachableRC 1 :=
    ReachableRC.step envForce dFull mFull (republishOf dFull mFull) rfl
      ReachableRC.zero (by decide)
  exact ⟨h.1 (mkRetryable dRetry5 mFull) rfl,
    h.2.1 envForce dRetry5 mFull send_email rfl rfl (by decide) rfl (by decide)
      (by decide),
    hstep, h.2.2 1 hstep⟩

/-- Claim C8: every republished retry uses persistent delivery mode 2,
carries header x-retry-count equal to the incremented effective retry
count, has per-message TTL equal to the computed backoff delay in
milliseconds, goes to the default exchange under the same routing key the
original delivery arrived on, and the original delivery is then acked. -/
theorem C8_republish_envelope (env : Env) (d : Delivery) (m : MessageData)
    (pub : PublishedMessage)
    (hb : d.body = some m)
    (h : (process_message env d).outcome = Outcome.republishAck pub) :
    pub.deliveryMode = 2 ∧
    pub.headerRetryCount = effRC d m + 1 ∧
    pub.expirationMs = calculate_backoff_delay (effRC d m) * 1000 ∧
    pub.routingKey = d.routingKey ∧
    pub.exchange = "" ∧
    (process_message env d).outcome.actions
      = [BrokerAction.publish pub, BrokerAction.ack] := by
  obtain ⟨hlt, hp⟩ := republish_inv env d m pub hb h
  subst hp
  refine ⟨rfl, rfl, rfl, rfl, rfl, ?_⟩
  rw [h]
  rfl

/-- Witness for C8: the concrete republish produced by a forced dispatch
failure on the delivery of mFull. -/
theorem C8_witness :
    (republishOf dFull mFull).deliveryMode = 2 ∧
    (republishOf dFull mFull).headerRetryCount = effRC dFull mFull + 1 ∧
    (republishOf dFull mFull).expirationMs
      = calculate_backoff_delay (effRC dFull mFull) * 1000 ∧
    (republishOf dFull mFull).routingKey = dFull.routingKey ∧
    (republishOf dFull mFull).exchange = "" ∧
    (process_message envForce dFull).outcome.actions
      = [BrokerAction.publish (republishOf dFull mFull), BrokerAction.ack] :=
  C8_republish_envelope envForce dFull mFull (republishOf dFull mFull) rfl (by decide)

/-- Counterexample to claim C9 as stated: an email payload missing the
required field to succeeds instead of failing with InvalidPayload; the
dispatchers perform no payload validation. -/
theorem C9_counterexample :
    dictGet [("subject", "s"), ("body", "b")] "to" = none ∧
    send_email false false [("subject", "s"), ("body", "b")] = SendResult.success := by
  decide

/-- Claim C9 (amended): the dispatchers classify nothing. Absent the
forced and random failures, send_email succeeds exactly when body is
present (a missing body raises an uncaught TypeError, while missing to or
subject still succeed), send_sms always succeeds, and send_push succeeds
exactly when deviceToken is present; the forced and random failures raise
unclassified exceptions regardless of the payload. -/
theorem C9_no_validation_no_classification :
    ∀ (p : Payload) (rf : Bool),
      (send_email false false p = SendResult.success
        ↔ (dictGet p "body").isSome = true) ∧
      send_sms false false p = SendResult.success ∧
      (send_push false false p = SendResult.success
        ↔ (dictGet p "deviceToken").isSome = true) ∧
      send_email true rf p = SendResult.forcedFailure ∧
      send_sms true rf p = SendResult.forcedFailure ∧
      send_push true rf p = SendResult.forcedFailure ∧
      send_email false true p = SendResult.randomFailure ∧
      send_sms false true p = SendResult.randomFailure ∧
      send_push false true p = SendResult.randomFailure := by
  intro p rf
  refine ⟨?_, rfl, ?_, rfl, rfl, rfl, rfl, rfl, rfl⟩
  · rcases hx : dictGet p "body" with _ | v <;> simp [send_email, hx]
  · rcases hx : dictGet p "deviceToken" with _ | v <;> simp [send_push, hx]

/-- Claim C10: the body of every republished retry equals the original
parsed body with only retryCount replaced by the effective retry count
plus one; id, type, userId, idempotencyKey and payload are unchanged, and
the new body retryCount equals the x-retry-count header of the
republished message. -/
theorem C10_republish_body_frame (env : Env) (d : Delivery) (m : MessageData)
    (pub : PublishedMessage)
    (hb : d.body = some m)
    (h : (process_message env d).outcome = Outcome.republishAck pub) :
    pub.body.id = m.id ∧
    pub.body.typ = m.typ ∧
    pub.body.userId = m.userId ∧
    pub.body.idempotencyKey = m.idempotencyKey ∧
    pub.body.payload = m.payload ∧
    pub.body.retryCount = some (effRC d m + 1) ∧
    pub.body.retryCount = some pub.headerRetryCount := by
  obtain ⟨hlt, hp⟩ := republish_inv env d m pub hb h
  subst hp
  exact ⟨rfl, rfl, rfl, rfl, rfl, rfl, rfl⟩

/-- Witness for C10: the concrete republish of the delivery of mFull
changes only retryCount, to 1, matching its header. -/
theorem C10_witness :
    (republishOf dFull mFull).body.id = mFull.id ∧
    (republishOf dFull mFull).body.typ = mFull.typ ∧
    (republishOf dFull mFull).body.userId = mFull.userId ∧
    (republishOf dFull mFull).body.idempotencyKey = mFull.idempotencyKey ∧
    (republishOf dFull mFull).body.payload = mFull.payload ∧
    (republishOf dFull mFull).body.retryCount = some (effRC dFull mFull + 1) ∧
    (republishOf dFull mFull).body.retryCount
      = some (republishOf dFull mFull).headerRetryCount :=
  C10_republish_body_frame envForce dFull mFull (republishOf dFull mFull) rfl (by decide)

end NotifWorker
